import Mathlib

/-!
Shallow embedding of the validated-fetch utility of
`src/queries/fetch.ts` and the mutation helpers of
`src/queries/mutate.ts` from the modern-react-template-lite repository,
together with theorems settling the claims about them.

The JavaScript code performs one HTTP round trip per call.  We model the
environment of a single call as a `NetOutcome`: either the underlying
`fetch` promise rejects with some thrown value, or it resolves with a
numeric status and a body whose parse as JSON (`response.json()`) either
yields a JSON value or fails with a syntax-error message.  All the
functions of the two modules are then pure functions of their arguments
and this outcome.
-/

set_option autoImplicit false

/-- JSON values, the data exchanged with the server. -/
inductive Json where
  | null
  | bool (b : Bool)
  | num (n : Int)
  | str (s : String)
  | arr (items : List Json)
  | obj (fields : List (String × Json))
  deriving Repr

/-- Payload of the `data` field of a `FetchError`: either a JSON error
body (HTTP-failure path of `fetch.ts`, line 122) or the Zod issues of a
validation failure (line 144). -/
inductive ErrVal where
  | json (j : Json)
  | zod (issues : List String)
  deriving Repr

/-- The `FetchError` class of `src/queries/fetch.ts` (lines 55-66):
a message, an optional HTTP status and optional diagnostic data. -/
structure FetchError where
  message : String
  status : Option Nat := none
  data : Option ErrVal := none
  deriving Repr

/-- A Zod schema, as used by `fetch.ts`: `schema.parse` either returns
the validated (possibly normalized) value or throws a `ZodError`
carrying a list of issues. -/
structure Schema where
  parse : Json → Except (List String) Json

/-- The `FetchOptions` bag of `fetch.ts` (lines 71-73): the `RequestInit`
fields the repository actually uses (method, headers, body) plus the
optional Zod schema.  The body is modelled by the JSON value that
`JSON.stringify` serializes. -/
structure FetchOptions where
  method : String := "GET"
  headers : List (String × String) := []
  body : Option Json := none
  schema : Option Schema := none

/-- A value thrown inside the `try` block of `fetchData`: the
`FetchError` it constructs itself, a `ZodError` from `schema.parse`, an
`Error` instance (e.g. the `TypeError` of a network failure or the
`SyntaxError` of `response.json()`), or a non-`Error` value such as a
thrown string. -/
inductive Thrown where
  | fetchErr (e : FetchError)
  | zodErr (issues : List String)
  | jsErr (message : String)
  | other (value : String)

/-- Outcome of the single network round trip of one `fetchData` call:
either the `fetch` promise rejects with a thrown value, or it resolves
with an HTTP status and a body whose JSON parse yields a value or fails
with a syntax-error message. -/
inductive NetOutcome where
  | fail (e : Thrown)
  | resp (status : Nat) (body : Except String Json)

/-- Model of `response.ok`: the status lies in the 2xx success range. -/
def responseOk (status : Nat) : Bool :=
  200 ≤ status && status < 300

/-- Model of `await response.json().catch(() => null)` on the failure path
(`fetch.ts` line 121): the parsed body when parsing succeeds, nothing
when it fails. -/
def errorDataOf : Except String Json → Option ErrVal
  | .ok j => some (.json j)
  | .error _ => none

/-- The body of the `try` block of `fetchData` (`fetch.ts` lines
112-138), with each `throw` made explicit as an `Except.error` carrying
the thrown value:
if the response is not ok, throw the `FetchError` built from the status
and the (optionally parsed) error body; otherwise parse the body
(`response.json()` throws on invalid JSON), then validate with the
schema when one was supplied (`schema.parse` throws a `ZodError` on
failure) and return the validated value, or return the parsed body
unchanged when no schema was supplied. -/
def tryBody (opts : FetchOptions) (net : NetOutcome) : Except Thrown Json :=
  match net with
  | .fail e => .error e
  | .resp status body =>
    if responseOk status = false then
      .error (.fetchErr
        { message := "HTTP error! status: " ++ toString status
          status := some status
          data := errorDataOf body })
    else
      match body with
      | .error msg => .error (.jsErr msg)
      | .ok data =>
        match opts.schema with
        | some schema =>
          match schema.parse data with
          | .ok validated => .ok validated
          | .error issues => .error (.zodErr issues)
        | none => .ok data

/-- The `catch` block of `fetchData` (`fetch.ts` lines 139-149): a
`FetchError` is rethrown unchanged; a `ZodError` becomes
`FetchError('Response validation failed')` with the issues as data; any
other `Error` is wrapped with its own message; anything else becomes
`FetchError('Unknown error')`. -/
def handleCatch : Thrown → FetchError
  | .fetchErr e => e
  | .zodErr issues =>
    { message := "Response validation failed", status := none, data := some (.zod issues) }
  | .jsErr msg => { message := msg }
  | .other _ => { message := "Unknown error" }

/-- Model of `fetchData` (`fetch.ts` lines 106-150) as a function of its options
and of the outcome of its single network call: run the `try` block and
route every thrown value through the `catch` block. -/
def fetchData (opts : FetchOptions) (net : NetOutcome) : Except FetchError Json :=
  match tryBody opts net with
  | .ok v => .ok v
  | .error t => .error (handleCatch t)

/-- The request `fetchData` issues (`fetch.ts` lines 113-119): the
caller's url, method and body, with the headers object built by the
spread `{ 'Content-Type': 'application/json', ...fetchOptions.headers }`.
We model the object literal by the list of its key-value assignments in
evaluation order; a later assignment to the same key overwrites an
earlier one, which `getHeader` below reflects. -/
structure Request where
  url : String
  method : String
  headers : List (String × String)
  body : Option Json

/-- The request descriptor a call `fetchData url opts` hands to `fetch`. -/
def fetchRequest (url : String) (opts : FetchOptions) : Request :=
  { url := url
    method := opts.method
    body := opts.body
    headers := ("Content-Type", "application/json") :: opts.headers }

/-- Lookup in an object built from a list of key-value assignments,
later assignments overwriting earlier ones (JavaScript object-literal
and spread semantics). -/
def getHeader (hs : List (String × String)) (k : String) : Option String :=
  match hs with
  | [] => none
  | p :: rest =>
    match getHeader rest k with
    | some v => some v
    | none => if p.1 = k then some p.2 else none

/-- A hexadecimal digit as matched by `[0-9a-f]` under the `/i` flag. -/
def isHexDigit (c : Char) : Bool :=
  ('0' ≤ c && c ≤ '9') || ('a' ≤ c && c ≤ 'f') || ('A' ≤ c && c ≤ 'F')

/-- Splitting a character list at every `'-'`, mirroring how the
hyphens structure the UUID regex. -/
def splitDash : List Char → List (List Char)
  | [] => [[]]
  | c :: rest =>
    let r := splitDash rest
    if c = '-' then [] :: r
    else
      match r with
      | [] => [[c]]
      | g :: gs => (c :: g) :: gs

/-- The UUID test used by `fetchUserById`, `updateUser` and
`deletePost`: the regex
`/^[0-9a-f]{8}-[0-9a-f]{4}-[0-9a-f]{4}-[0-9a-f]{4}-[0-9a-f]{12}$/i`,
i.e. exactly five hyphen-separated groups of hexadecimal digits of
lengths 8, 4, 4, 4 and 12. -/
def isUuid (s : String) : Bool :=
  match splitDash s.data with
  | [g1, g2, g3, g4, g5] =>
    g1.length == 8 && g2.length == 4 && g3.length == 4 && g4.length == 4 &&
      g5.length == 12 && (g1 ++ g2 ++ g3 ++ g4 ++ g5).all isHexDigit
  | _ => false

/-- A value thrown out of a mutation helper, as seen by its caller:
either a plain `Error` (the precondition throws of `mutate.ts`) or a
`FetchError` (everything thrown by `fetchData`). -/
inductive JsError where
  | plainError (message : String)
  | fetchError (e : FetchError)
  deriving Repr

/-- One run of a query/mutation helper: the request it handed to
`fetchData`, if it issued one at all (`none` means the helper failed
before any network call), and its result. -/
structure HelperRun (α : Type) where
  request : Option Request
  result : Except JsError α

/-- Holds (as `true`) unless the result failed with a plain (non-`FetchError`)
error, i.e. the failure, if any, has the unified typed-error shape. -/
def resultUnified {α : Type} : Except JsError α → Bool
  | .error (.plainError _) => false
  | _ => true

/-- The options `deleteResource` passes to `fetchData`. -/
def deleteOptions : FetchOptions := { method := "DELETE" }

/-- Model of `deleteResource` (`mutate.ts` lines 128-132): a DELETE request
through `fetchData`, its resolved value discarded. -/
def deleteResource (url : String) (net : NetOutcome) : HelperRun Unit :=
  { request := some (fetchRequest url deleteOptions)
    result := ((fetchData deleteOptions net).map fun _ => ()).mapError .fetchError }

/-- Model of `deletePost` (`mutate.ts` lines 225-235): throw a plain
`Error('Invalid post ID format')` when the id fails the UUID regex,
otherwise delegate to `deleteResource` on `/api/posts/` ++ id. -/
def deletePost (postId : String) (net : NetOutcome) : HelperRun Unit :=
  if isUuid postId = false then
    { request := none, result := .error (.plainError "Invalid post ID format") }
  else
    deleteResource ("/api/posts/" ++ postId) net

/-- Model of `createPost` (`mutate.ts` lines 149-156): a POST of the serialized
title/content object to `/api/posts`, validated with the post schema.
The schema is the `postSchema` the function dynamically imports from
`src/schemas/api.ts`, passed here as a parameter. -/
def createPost (postSchema : Schema) (title content : String) (net : NetOutcome) :
    HelperRun Json :=
  let opts : FetchOptions :=
    { method := "POST"
      body := some (.obj [("title", .str title), ("content", .str content)])
      schema := some postSchema }
  { request := some (fetchRequest "/api/posts" opts)
    result := (fetchData opts net).mapError .fetchError }

/-- Model of `updateUser` (`mutate.ts` lines 186-213): throw a plain
`Error('Invalid user ID format')` when the id fails the UUID regex;
otherwise throw a plain `Error('Name and email are required')` when
`!data.name || !data.email` (a string is falsy exactly when it is
empty); otherwise PUT the serialized name/email object to
`/api/users/` ++ id, validated with the user schema. -/
def updateUser (userSchema : Schema) (userId name email : String) (net : NetOutcome) :
    HelperRun Json :=
  if isUuid userId = false then
    { request := none, result := .error (.plainError "Invalid user ID format") }
  else if name = "" ∨ email = "" then
    { request := none, result := .error (.plainError "Name and email are required") }
  else
    let opts : FetchOptions :=
      { method := "PUT"
        body := some (.obj [("name", .str name), ("email", .str email)])
        schema := some userSchema }
    { request := some (fetchRequest ("/api/users/" ++ userId) opts)
      result := (fetchData opts net).mapError .fetchError }

/-- Model of `fetchUserById` (`fetch.ts` lines 168-180): throw a
`FetchError('Invalid user ID format')` (note: a `FetchError`, unlike the
precondition throws of `mutate.ts`) when the id fails the UUID regex,
otherwise GET `/api/users/` ++ id validated with the user schema. -/
def fetchUserById (userSchema : Schema) (userId : String) (net : NetOutcome) :
    HelperRun Json :=
  if isUuid userId = false then
    { request := none
      result := .error (.fetchError { message := "Invalid user ID format" }) }
  else
    let opts : FetchOptions := { schema := some userSchema }
    { request := some (fetchRequest ("/api/users/" ++ userId) opts)
      result := (fetchData opts net).mapError .fetchError }

/-- Truth value of an `Except` being a success. -/
def isOkB {ε α : Type} : Except ε α → Bool
  | .ok _ => true
  | .error _ => false

/-- A schema that accepts any value unchanged; used only to instantiate
helper parameters at concrete points. -/
def idSchema : Schema := ⟨fun j => .ok j⟩

/-- A concrete schema in the style of `userSchema`: requires an object
with a non-empty string field `name`, and normalizes by keeping only
that field (so the validated value can differ from the input). -/
def sampleSchema : Schema :=
  ⟨fun j =>
    match j with
    | .obj fields =>
      match fields.lookup "name" with
      | some (.str n) =>
        if n.length ≥ 1 then .ok (.obj [("name", .str n)])
        else .error ["String must contain at least 1 character(s)"]
      | _ => .error ["Required"]
    | _ => .error ["Expected object, received other"]⟩

example : isUuid "abc" = false := by decide
example : isUuid "550e8400-e29b-41d4-a716-446655440000" = true := by decide
example : isUuid "550E8400-E29B-41D4-A716-446655440000" = true := by decide
example : isUuid "550e8400-e29b-41d4-a716-44665544000" = false := by decide
example : fetchData {} (.resp 200 (.ok .null)) = .ok .null := rfl
example :
    fetchData {} (.resp 404 (.ok (.obj [("message", .str "not found")]))) =
      .error
        { message := "HTTP error! status: " ++ toString 404
          status := some 404
          data := some (.json (.obj [("message", .str "not found")])) } := rfl

/-- Every error produced through `Except.mapError JsError.fetchError`
has the unified shape. -/
theorem resultUnified_mapError {α : Type} (r : Except FetchError α) :
    resultUnified (r.mapError JsError.fetchError) = true := by
  cases r <;> rfl

/-- Success condition of `fetchData` after amendment of claim C1: a
response arrived, its status is in the 2xx range, its body parses as
JSON, and the schema, when one was supplied, accepts the parsed body. -/
def successCondition (opts : FetchOptions) (net : NetOutcome) : Prop :=
  match net with
  | .fail _ => False
  | .resp status body =>
    responseOk status = true ∧
      match body with
      | .error _ => False
      | .ok j =>
        match opts.schema with
        | none => True
        | some s => isOkB (s.parse j) = true

/-- Claim C1, counterexample: a 2xx response with no schema supplied
whose body is not valid JSON yields a typed error, refuting "a 2xx
response with no schema supplied must always yield a returned value,
not an error" (the success-path `response.json()` throws and the catch
block wraps the `SyntaxError`). -/
theorem fetchData_ok_no_schema_bad_body_errors :
    fetchData {} (.resp 200 (.error "Unexpected end of JSON input")) =
      .error { message := "Unexpected end of JSON input", status := none, data := none } :=
  rfl

/-- Claim C1, amended: `fetchData` returns a success value if and only
if a response arrived whose status is 2xx, whose body parses as JSON,
and whose parsed body the supplied schema (if any) accepts; by the
`Except` return type every other outcome is exactly one typed error. -/
theorem fetchData_success_iff (opts : FetchOptions) (net : NetOutcome) :
    isOkB (fetchData opts net) = true ↔ successCondition opts net := by
  cases net with
  | fail e => simp [fetchData, tryBody, isOkB, successCondition]
  | resp status body =>
    by_cases hok : responseOk status = true
    · cases body with
      | error msg => simp [fetchData, tryBody, hok, isOkB, successCondition]
      | ok j =>
        cases hs : opts.schema with
        | none => simp [fetchData, tryBody, hok, hs, isOkB, successCondition]
        | some s =>
          cases hp : s.parse j with
          | ok v => simp [fetchData, tryBody, hok, hs, hp, isOkB, successCondition]
          | error issues =>
            simp [fetchData, tryBody, hok, hs, hp, isOkB, successCondition]
    · have hok' : responseOk status = false := by
        cases hr : responseOk status with
        | true => exact absurd hr hok
        | false => rfl
      simp [fetchData, tryBody, hok', isOkB, successCondition]

/-- Claim C2: for every response whose status is outside the 2xx range,
`fetchData` yields a `FetchError` whose `status` is that code, whose
message is the string "HTTP error! status: " followed by the code (so
the message embeds the code), and whose `data` is the body parsed as
JSON when parseable and absent otherwise (`errorDataOf`). -/
theorem fetchData_http_failure (opts : FetchOptions) (status : Nat)
    (body : Except String Json) (h : responseOk status = false) :
    fetchData opts (.resp status body) =
      .error
        { message := "HTTP error! status: " ++ toString status
          status := some status
          data := errorDataOf body } := by
  simp [fetchData, tryBody, h, handleCatch]

/-- Witness for C2 at the spec's scenario 2: a 404 whose body parses as
the object with field message = "not found". -/
theorem fetchData_http_failure_witness :
    fetchData {} (.resp 404 (.ok (.obj [("message", .str "not found")]))) =
      .error
        { message := "HTTP error! status: " ++ toString 404
          status := some 404
          data := some (.json (.obj [("message", .str "not found")])) } :=
  fetchData_http_failure {} 404 (.ok (.obj [("message", .str "not found")])) (by decide)

/-- Claim C3: for every non-success response whose body is not valid
JSON, `fetchData` yields the typed error with the `data` field absent;
the failed parse is absorbed by the `.catch(() => null)` and raises no
secondary error, the result being exactly this one error. -/
theorem fetchData_http_failure_unparseable (opts : FetchOptions) (status : Nat)
    (msg : String) (h : responseOk status = false) :
    fetchData opts (.resp status (.error msg)) =
      .error
        { message := "HTTP error! status: " ++ toString status
          status := some status
          data := none } := by
  simp [fetchData, tryBody, h, handleCatch, errorDataOf]

/-- Witness for C3: a 500 whose body fails to parse as JSON. -/
theorem fetchData_http_failure_unparseable_witness :
    fetchData {} (.resp 500 (.error "Unexpected token < in JSON at position 0")) =
      .error
        { message := "HTTP error! status: " ++ toString 500
          status := some 500
          data := none } :=
  fetchData_http_failure_unparseable {} 500 "Unexpected token < in JSON at position 0"
    (by decide)

/-- Claim C4: on a 2xx response with a schema supplied, when the parsed
body passes `schema.parse`, `fetchData` returns the schema's validated
(possibly normalized) value; when it fails, it yields exactly the typed
error with message "Response validation failed", no status, and the
validation issues as data. -/
theorem fetchData_schema_validation (s : Schema) (opts : FetchOptions) (status : Nat)
    (j : Json) (hok : responseOk status = true) (hs : opts.schema = some s) :
    (∀ v, s.parse j = .ok v → fetchData opts (.resp status (.ok j)) = .ok v) ∧
      ∀ issues, s.parse j = .error issues →
        fetchData opts (.resp status (.ok j)) =
          .error
            { message := "Response validation failed"
              status := none
              data := some (.zod issues) } := by
  constructor
  · intro v hv
    simp [fetchData, tryBody, hok, hs, hv]
  · intro issues hi
    simp [fetchData, tryBody, hok, hs, hi, handleCatch]

/-- Witness for C4: `sampleSchema` accepts an object with a non-empty
name and normalizes it by dropping the extra field, and `fetchData`
returns that normalized value. -/
theorem fetchData_schema_validation_witness :
    fetchData { schema := some sampleSchema }
        (.resp 200 (.ok (.obj [("name", .str "Jane"), ("extra", .num 1)]))) =
      .ok (.obj [("name", .str "Jane")]) :=
  (fetchData_schema_validation sampleSchema { schema := some sampleSchema } 200
      (.obj [("name", .str "Jane"), ("extra", .num 1)]) (by decide) rfl).1
    (.obj [("name", .str "Jane")]) rfl

/-- Claim C5: on a 2xx response with no schema supplied whose body
parses as JSON, `fetchData` returns exactly the parsed body. -/
theorem fetchData_no_schema_identity (opts : FetchOptions) (status : Nat) (j : Json)
    (hok : responseOk status = true) (hs : opts.schema = none) :
    fetchData opts (.resp status (.ok j)) = .ok j := by
  simp [fetchData, tryBody, hok, hs]

/-- Witness for C5 at a concrete parsed body. -/
theorem fetchData_no_schema_identity_witness :
    fetchData {} (.resp 200 (.ok (.obj [("id", .str "1"), ("name", .str "Jane")]))) =
      .ok (.obj [("id", .str "1"), ("name", .str "Jane")]) :=
  fetchData_no_schema_identity {} 200 (.obj [("id", .str "1"), ("name", .str "Jane")])
    (by decide) rfl

/-- Property of one helper run: its failure, if any, either has the
unified `FetchError` shape, or is a plain precondition `Error` with one
of the listed messages thrown before any network call. -/
def unifiedOrPrecondition {α : Type} (run : HelperRun α) (msgs : List String) : Prop :=
  resultUnified run.result = true ∨
    (run.request = none ∧ ∃ m, m ∈ msgs ∧ run.result = .error (.plainError m))

/-- Claim C6, counterexample: `deletePost` on the malformed id "abc"
fails with a plain `Error('Invalid post ID format')`, which does not
have the unified `FetchError` shape, refuting "every failure path of
every mutation helper yields an error of the single unified typed-error
shape". -/
theorem deletePost_plain_error_not_unified :
    (deletePost "abc" (.resp 200 (.ok .null))).result =
        .error (.plainError "Invalid post ID format") ∧
      resultUnified (deletePost "abc" (.resp 200 (.ok .null))).result = false :=
  ⟨rfl, rfl⟩

/-- Claim C6, amended: every failure of `createPost`, `fetchUserById`
and `deleteResource` has the unified `FetchError` shape; every failure
of `updateUser` and `deletePost` either has that shape or is one of
their documented precondition throws, a plain `Error` with the listed
message raised before any network call.  In each case the `Except`
result carries exactly one error and nothing is swallowed. -/
theorem helpers_error_channel (uSch pSch : Schema) :
    (∀ title content net,
        resultUnified (createPost pSch title content net).result = true) ∧
      (∀ userId name email net,
        unifiedOrPrecondition (updateUser uSch userId name email net)
          ["Invalid user ID format", "Name and email are required"]) ∧
      (∀ postId net,
        unifiedOrPrecondition (deletePost postId net) ["Invalid post ID format"]) ∧
      (∀ userId net, resultUnified (fetchUserById uSch userId net).result = true) ∧
      (∀ url net, resultUnified (deleteResource url net).result = true) := by
  refine ⟨fun title content net => ?_, fun userId name email net => ?_,
    fun postId net => ?_, fun userId net => ?_, fun url net => ?_⟩
  · simp only [createPost]
    exact resultUnified_mapError _
  · by_cases hid : isUuid userId = false
    · right
      refine ⟨by simp [updateUser, hid], "Invalid user ID format", by simp,
        by simp [updateUser, hid]⟩
    · by_cases he : name = "" ∨ email = ""
      · right
        refine ⟨?_, "Name and email are required", by simp, ?_⟩ <;>
          simp [updateUser, hid, he]
      · left
        simp only [updateUser, if_neg hid, if_neg he]
        exact resultUnified_mapError _
  · by_cases hid : isUuid postId = false
    · right
      refine ⟨by simp [deletePost, hid], "Invalid post ID format", by simp,
        by simp [deletePost, hid]⟩
    · left
      simp only [deletePost, if_neg hid, deleteResource]
      exact resultUnified_mapError _
  · by_cases hid : isUuid userId = false
    · simp [fetchUserById, hid, resultUnified]
    · simp only [fetchUserById, if_neg hid]
      exact resultUnified_mapError _
  · simp only [deleteResource]
    exact resultUnified_mapError _

/-- Claim C7: `deletePost` never issues a network call on an id that
fails the UUID regex and fails at once with the format-error message,
and on an id that matches it delegates the DELETE request for
`/api/posts/` ++ id to the `fetchData` pipeline. -/
theorem deletePost_uuid_gate (postId : String) (net : NetOutcome) :
    (isUuid postId = false →
        (deletePost postId net).request = none ∧
          (deletePost postId net).result =
            .error (.plainError "Invalid post ID format")) ∧
      (isUuid postId = true →
        (deletePost postId net).request =
            some (fetchRequest ("/api/posts/" ++ postId) deleteOptions) ∧
          (deletePost postId net).result =
            ((fetchData deleteOptions net).map fun _ => ()).mapError .fetchError) := by
  constructor
  · intro h
    simp [deletePost, h]
  · intro h
    simp [deletePost, h, deleteResource]

/-- Witness for C7: the malformed id "abc" is rejected without a
request, and a canonical UUID is forwarded to the pipeline. -/
theorem deletePost_uuid_gate_witness :
    ((deletePost "abc" (.resp 200 (.ok .null))).request = none ∧
        (deletePost "abc" (.resp 200 (.ok .null))).result =
          .error (.plainError "Invalid post ID format")) ∧
      (deletePost "550e8400-e29b-41d4-a716-446655440000" (.resp 200 (.ok .null))).request =
        some (fetchRequest ("/api/posts/" ++ "550e8400-e29b-41d4-a716-446655440000")
          deleteOptions) :=
  ⟨(deletePost_uuid_gate "abc" (.resp 200 (.ok .null))).1 (by decide),
    ((deletePost_uuid_gate "550e8400-e29b-41d4-a716-446655440000"
        (.resp 200 (.ok .null))).2 (by decide)).1⟩

/-- Claim C8: in the headers of the request `fetchData` issues, a key
set by the caller keeps the caller's value (later assignments win over
the default), and a key the caller did not set falls back to the
default, which is `application/json` exactly for `Content-Type`. -/
theorem fetchRequest_header_merge (url : String) (opts : FetchOptions) (k : String) :
    (∀ v, getHeader opts.headers k = some v →
        getHeader (fetchRequest url opts).headers k = some v) ∧
      (getHeader opts.headers k = none →
        getHeader (fetchRequest url opts).headers k =
          if k = "Content-Type" then some "application/json" else none) := by
  constructor
  · intro v h
    simp [fetchRequest, getHeader, h]
  · intro h
    simp only [fetchRequest, getHeader, h]
    by_cases hk : k = "Content-Type"
    · subst hk
      simp
    · rw [if_neg (fun hh => hk hh.symm), if_neg hk]

/-- Witness for C8: a caller-supplied `Content-Type` overrides the
default on a key collision. -/
theorem fetchRequest_header_merge_witness :
    getHeader (fetchRequest "/api/posts"
        { headers := [("Content-Type", "text/plain")] }).headers "Content-Type" =
      some "text/plain" :=
  (fetchRequest_header_merge "/api/posts" { headers := [("Content-Type", "text/plain")] }
      "Content-Type").1 "text/plain" rfl

/-- Claim C9, counterexample: with a malformed user id and an empty
name, `updateUser` throws `Error('Invalid user ID format')` — the UUID
check runs first — not `Error('Name and email are required')`, refuting
the claim's universally quantified message. -/
theorem updateUser_bad_id_empty_name :
    (updateUser idSchema "abc" "" "jane@example.com" (.resp 200 (.ok .null))).result =
      .error (.plainError "Invalid user ID format") :=
  rfl

/-- Claim C9, amended: provided the user id passes the UUID check
(which runs first), whenever the name or the email is the empty string,
`updateUser` throws `Error('Name and email are required')` before
issuing any network call. -/
theorem updateUser_empty_field_rejected (uSch : Schema) (userId name email : String)
    (net : NetOutcome) (hid : isUuid userId = true) (he : name = "" ∨ email = "") :
    (updateUser uSch userId name email net).request = none ∧
      (updateUser uSch userId name email net).result =
        .error (.plainError "Name and email are required") := by
  unfold updateUser
  rw [if_neg (by simp [hid]), if_pos he]
  exact ⟨rfl, rfl⟩

/-- Witness for C9 (amended) at a valid UUID and an empty name. -/
theorem updateUser_empty_field_rejected_witness :
    (updateUser idSchema "550e8400-e29b-41d4-a716-446655440000" "" "jane@example.com"
          (.resp 200 (.ok .null))).request = none ∧
      (updateUser idSchema "550e8400-e29b-41d4-a716-446655440000" "" "jane@example.com"
          (.resp 200 (.ok .null))).result =
        .error (.plainError "Name and email are required") :=
  updateUser_empty_field_rejected idSchema "550e8400-e29b-41d4-a716-446655440000" ""
    "jane@example.com" (.resp 200 (.ok .null)) (by decide) (Or.inl rfl)

/-- Claim C10: a non-`Error`, non-`FetchError`, non-`ZodError` thrown
value (such as a thrown string) is wrapped as
`FetchError('Unknown error')` with no status and no data, and a
`FetchError` thrown inside `fetchData` is propagated to the caller
unchanged. -/
theorem fetchData_catch_wrapping (opts : FetchOptions) (v : String) (e : FetchError) :
    fetchData opts (.fail (.other v)) =
        .error { message := "Unknown error", status := none, data := none } ∧
      fetchData opts (.fail (.fetchErr e)) = .error e :=
  ⟨rfl, rfl⟩
